import Mathlib

/-!
Shallow embedding of the agentic-mcp-gateway GitHub tool adapters
(src/agentic_mcp_gateway/tools/github.py) and the MCP server glue
(src/agentic_mcp_gateway/server.py), together with a spec-modelled
orchestrator loop for the parts of the repository not present in the
sources.  JSON payloads are modelled by an inductive `Json` type; the
behaviour of the underlying HTTP client is abstracted into an
`HttpBehavior` value (timeout, network error, or a response with a
status code and a body that parsed or failed to parse); Python dict /
list operations (`d[k]`, `d.get`, slicing, `len`, iteration, truthiness,
the `in` operator) are given as total Lean functions returning `Except`
where the Python operation can raise.
-/

namespace AgenticMcpGateway

/-- A JSON value.  Numbers are modelled as exact rationals (GitHub byte
counts are integers; the only non-integer numbers produced by the code
under study are language percentages). -/
inductive Json where
  | null
  | bool (b : Bool)
  | num (q : ℚ)
  | str (s : String)
  | arr (elems : List Json)
  | obj (fields : List (String × Json))
deriving Repr, BEq

namespace Json

/-- Python `d[k]` on a dict: the stored value, or a `KeyError`; indexing a
non-dict with a string key is a `TypeError`. -/
def index (j : Json) (k : String) : Except String Json :=
  match j with
  | .obj fields =>
      match fields.find? (fun p => p.1 == k) with
      | some p => .ok p.2
      | none => .error ("KeyError: " ++ k)
  | _ => .error ("TypeError: value is not subscriptable with key " ++ k)

/-- First value stored under key `k` of an object, `none` otherwise. -/
def lookup (j : Json) (k : String) : Option Json :=
  match j with
  | .obj fields => (fields.find? (fun p => p.1 == k)).map (fun p => p.2)
  | _ => none

/-- Python `d.get(k, default)`: only dicts have `.get`; a missing key
yields the default (a key stored with value `null` yields `null`, not the
default, exactly as in Python). -/
def get (j : Json) (k : String) (default : Json) : Except String Json :=
  match j with
  | .obj _ => .ok ((j.lookup k).getD default)
  | _ => .error ("AttributeError: object has no attribute get (key " ++ k ++ ")")

/-- Python truthiness of a JSON value: `None`, `False`, `0`, `""`, `[]`
and `{}` are falsy, everything else truthy. -/
def truthy : Json → Bool
  | .null => false
  | .bool b => b
  | .num q => decide (q ≠ 0)
  | .str s => decide (s ≠ "")
  | .arr xs => !xs.isEmpty
  | .obj fs => !fs.isEmpty

/-- Python `len(x)`: length of a list, number of keys of a dict, number of
characters of a string; `TypeError` otherwise. -/
def pyLen : Json → Except String Nat
  | .arr xs => .ok xs.length
  | .obj fs => .ok fs.length
  | .str s => .ok s.length
  | _ => .error "TypeError: object has no len"

/-- Python iteration `for x in j`: the elements of a list, the keys of a
dict, the characters of a string; `TypeError` otherwise. -/
def iter : Json → Except String (List Json)
  | .arr xs => .ok xs
  | .obj fs => .ok (fs.map (fun p => Json.str p.1))
  | .str s => .ok (s.toList.map (fun c => Json.str (String.mk [c])))
  | _ => .error "TypeError: object is not iterable"

/-- Does the character list `needle` occur contiguously in `hay`? -/
def charsContain (needle : List Char) : List Char → Bool
  | [] => needle.isEmpty
  | c :: rest => needle.isPrefixOf (c :: rest) || charsContain needle rest

/-- Python `k in j` for a string `k`: key membership for a dict, element
membership for a list, substring test for a string; `TypeError`
otherwise. -/
def containsKey (j : Json) (k : String) : Except String Bool :=
  match j with
  | .obj fields => .ok (fields.any (fun p => p.1 == k))
  | .arr xs => .ok (xs.any (fun x => x == Json.str k))
  | .str s => .ok (charsContain k.toList s.toList)
  | _ => .error "TypeError: argument of type is not iterable"

end Json

/-- Python `xs[:n]` on a list for an arbitrary (possibly negative)
integer bound `n`. -/
def takePy (xs : List α) (n : Int) : List α :=
  if 0 ≤ n then xs.take n.toNat
  else xs.take ((xs.length + n).toNat)

/-- Python `j[:n]` on a JSON value: lists and strings are sliceable,
nothing else is. -/
def Json.slice (j : Json) (n : Int) : Except String Json :=
  match j with
  | .arr xs => .ok (.arr (takePy xs n))
  | .str s => .ok (.str (String.mk (takePy s.toList n)))
  | _ => .error "TypeError: unhashable type slice"

/-- Python `sum(vs)` over JSON values: numbers add their value, booleans
count as 0/1 (as in Python); anything else is a `TypeError`. -/
def sumValues (vs : List Json) : Except String ℚ :=
  vs.foldlM
    (fun acc v =>
      match v with
      | .num q => .ok (acc + q)
      | .bool b => .ok (acc + if b then 1 else 0)
      | _ => .error "TypeError: unsupported operand type for +")
    0

/-- Left-to-right effectful map over `Except`, the semantics of a Python
loop that appends one transformed element per iteration and propagates
the first exception. -/
def mapE (f : α → Except ε β) : List α → Except ε (List β)
  | [] => .ok []
  | x :: xs => do
    let y ← f x
    let ys ← mapE f xs
    return y :: ys

/-- One HTTP GET as the adapters see it: the await either times out
(`httpx.TimeoutException`), raises some other exception, or yields a
response with a status code and a body whose `.json()` either parsed or
raised. -/
inductive HttpBehavior where
  | timeout
  | netError (msg : String)
  | response (status : Int) (body : Except String Json)

/-- The error dictionary every adapter builds on a failure path:
`{"success": False, "error": msg}`. -/
def errorOutcome (msg : String) : List (String × Json) :=
  [("success", .bool false), ("error", .str msg)]

/-! Adapter: `github_repo_info` (github.py lines 8-86).  The fallible part
of the 200-status path (decoding the body and reshaping the payload, any
exception of which is caught by the trailing `except Exception` handler)
is factored into `repoInfoResult`; field accesses happen in the order the
Python dict literal evaluates them. -/

/-- Reshaping of the 200-status payload of `github_repo_info`: the pair
(result, details) of the success dictionary, or the message of the first
exception raised. -/
def repoInfoResult (owner repo : String) (body : Except String Json)
    : Except String (Json × Json) := do
  let data ← body
  let name ← data.index "name"
  let full_name ← data.index "full_name"
  let description ← data.get "description" (.str "No description")
  let ownerVal ← data.index "owner"
  let ownerLogin ← ownerVal.index "login"
  let stars ← data.index "stargazers_count"
  let forks ← data.index "forks_count"
  let open_issues ← data.index "open_issues_count"
  let language ← data.get "language" (.str "Unknown")
  let default_branch ← data.index "default_branch"
  let created_at ← data.index "created_at"
  let updated_at ← data.index "updated_at"
  let topics ← data.get "topics" (.arr [])
  -- license: `data["license"]["name"] if data.get("license") else None`;
  -- when the `.get` value is truthy the key is present, so re-indexing
  -- `data["license"]` returns that same value.
  let licenseVal ← data.get "license" .null
  let license ← if licenseVal.truthy then licenseVal.index "name" else pure Json.null
  let homepage ← data.get "homepage" .null
  let html_url ← data.index "html_url"
  return (Json.obj [("name", name), ("full_name", full_name),
      ("description", description), ("owner", ownerLogin), ("stars", stars),
      ("forks", forks), ("open_issues", open_issues), ("language", language),
      ("default_branch", default_branch), ("created_at", created_at),
      ("updated_at", updated_at), ("topics", topics), ("license", license),
      ("homepage", homepage), ("html_url", html_url)],
    Json.obj [("owner", .str owner), ("repo", .str repo)])

/-- `github_repo_info(owner, repo)` as a function of the HTTP behaviour. -/
def github_repo_info (owner repo : String) (http : HttpBehavior)
    : List (String × Json) :=
  match http with
  | .timeout => errorOutcome "Request timeout while connecting to GitHub API"
  | .netError msg => errorOutcome ("Error fetching repository info: " ++ msg)
  | .response status body =>
    if status == 404 then
      errorOutcome ("Repository " ++ owner ++ "/" ++ repo ++ " not found")
    else if status == 403 then
      errorOutcome "GitHub API rate limit exceeded. Set GITHUB_TOKEN to increase limits."
    else if status != 200 then
      errorOutcome ("GitHub API error: " ++ toString status)
    else
      match repoInfoResult owner repo body with
      | .ok (r, d) => [("success", .bool true), ("result", r), ("details", d)]
      | .error e => errorOutcome ("Error fetching repository info: " ++ e)

/-! Adapter: `github_search_repos` (github.py lines 89-159). -/

/-- The `per_page` request parameter of `github_search_repos`
(github.py line 112): `min(max_results, 30)`. -/
def github_search_per_page (max_results : Int) : Int :=
  min max_results 30

/-- Reshaping of one item of the search payload. -/
def searchItemResult (item : Json) : Except String Json := do
  let name ← item.index "name"
  let full_name ← item.index "full_name"
  let description ← item.get "description" (.str "No description")
  let stars ← item.index "stargazers_count"
  let language ← item.get "language" (.str "Unknown")
  let html_url ← item.index "html_url"
  return Json.obj [("name", name), ("full_name", full_name),
    ("description", description), ("stars", stars), ("language", language),
    ("html_url", html_url)]

/-- Fallible part of the 200-status path of `github_search_repos`: the
results list and the details dictionary. -/
def searchResult (query : String) (max_results : Int) (body : Except String Json)
    : Except String (List Json × Json) := do
  let data ← body
  let itemsVal ← data.get "items" (.arr [])
  let sliced ← itemsVal.slice max_results
  let items ← sliced.iter
  let results ← mapE searchItemResult items
  let total_count ← data.index "total_count"
  return (results,
    Json.obj [("query", .str query), ("total_count", total_count),
      ("returned", .num results.length)])

/-- `github_search_repos(query, max_results)` as a function of the HTTP
behaviour. -/
def github_search_repos (query : String) (max_results : Int)
    (http : HttpBehavior) : List (String × Json) :=
  match http with
  | .timeout => errorOutcome "Request timeout while connecting to GitHub API"
  | .netError msg => errorOutcome ("Error searching repositories: " ++ msg)
  | .response status body =>
    if status == 403 then
      errorOutcome "GitHub API rate limit exceeded. Set GITHUB_TOKEN to increase limits."
    else if status != 200 then
      errorOutcome ("GitHub API error: " ++ toString status)
    else
      match searchResult query max_results body with
      | .ok (rs, d) => [("success", .bool true), ("result", .arr rs), ("details", d)]
      | .error e => errorOutcome ("Error searching repositories: " ++ e)

/-! Adapter: `github_list_issues` (github.py lines 162-252). -/

/-- Reshaping of one non-pull-request issue item. -/
def issueItemResult (item : Json) : Except String Json := do
  let number ← item.index "number"
  let title ← item.index "title"
  let state ← item.index "state"
  let userVal ← item.index "user"
  let author ← userVal.index "login"
  let labelsVal ← item.get "labels" (.arr [])
  let labelItems ← labelsVal.iter
  let labels ← mapE (fun l => l.index "name") labelItems
  let created_at ← item.index "created_at"
  let updated_at ← item.index "updated_at"
  let comments ← item.index "comments"
  let html_url ← item.index "html_url"
  return Json.obj [("number", number), ("title", title), ("state", state),
    ("author", author), ("labels", .arr labels), ("created_at", created_at),
    ("updated_at", updated_at), ("comments", comments), ("html_url", html_url)]

/-- The loop of `github_list_issues`: skip items carrying a
`pull_request` key, reshape the rest, abort on the first exception. -/
def collectIssues : List Json → Except String (List Json)
  | [] => .ok []
  | item :: rest => do
    let isPR ← item.containsKey "pull_request"
    if isPR then
      collectIssues rest
    else do
      let issue ← issueItemResult item
      let more ← collectIssues rest
      return issue :: more

/-- Fallible part of the 200-status path of `github_list_issues`. -/
def issuesResult (owner repo state : String) (max_results : Int)
    (body : Except String Json) : Except String (List Json × Json) := do
  let data ← body
  let sliced ← data.slice max_results
  let items ← sliced.iter
  let issues ← collectIssues items
  return (issues,
    Json.obj [("owner", .str owner), ("repo", .str repo), ("state", .str state),
      ("count", .num issues.length)])

/-- `github_list_issues(owner, repo, state, max_results)` as a function of
the HTTP behaviour. -/
def github_list_issues (owner repo state : String) (max_results : Int)
    (http : HttpBehavior) : List (String × Json) :=
  match http with
  | .timeout => errorOutcome "Request timeout while connecting to GitHub API"
  | .netError msg => errorOutcome ("Error listing issues: " ++ msg)
  | .response status body =>
    if status == 404 then
      errorOutcome ("Repository " ++ owner ++ "/" ++ repo ++ " not found")
    else if status == 403 then
      errorOutcome "GitHub API rate limit exceeded. Set GITHUB_TOKEN to increase limits."
    else if status != 200 then
      errorOutcome ("GitHub API error: " ++ toString status)
    else
      match issuesResult owner repo state max_results body with
      | .ok (rs, d) => [("success", .bool true), ("result", .arr rs), ("details", d)]
      | .error e => errorOutcome ("Error listing issues: " ++ e)

/-! Adapter: `github_repo_languages` (github.py lines 255-332). -/

/-- Numeric value of a summand accepted by `sumValues` (booleans count as
0/1, as in Python arithmetic). -/
def byteVal : Json → ℚ
  | .num q => q
  | .bool b => if b then 1 else 0
  | _ => 0

/-- Python `sorted(data.items(), key=lambda x: x[1], reverse=True)`:
stable descending order on the stored byte counts. -/
def bytesGE (a b : String × Json) : Prop :=
  byteVal b.2 ≤ byteVal a.2

instance : DecidableRel bytesGE :=
  fun a b => inferInstanceAs (Decidable (byteVal b.2 ≤ byteVal a.2))

instance : IsTotal (String × Json) bytesGE :=
  ⟨fun a b => (le_total (byteVal a.2) (byteVal b.2)).symm⟩

instance : IsTrans (String × Json) bytesGE :=
  ⟨fun _ _ _ hab hbc => le_trans hbc hab⟩

/-- Python `round(q, 2)` on the exact rational model.  CPython rounds
binary floats half-to-even; on the exact rationals of this model the two
differ only at exact representational ties, which no statement below
depends on. -/
def round2 (q : ℚ) : ℚ :=
  (round (q * 100) : ℤ) / 100

/-- One entry of the languages result list. -/
def languageEntry (total : ℚ) (p : String × Json) : Json :=
  Json.obj [("language", .str p.1), ("bytes", p.2),
    ("percentage", .num (round2 (if 0 < total then byteVal p.2 / total * 100 else 0)))]

/-- Fallible part of the 200-status path of `github_repo_languages`:
`data.values()` (an `AttributeError` unless `data` is a dict), the total,
the sort, the percentage list and the details dictionary. -/
def languagesResult (owner repo : String) (body : Except String Json)
    : Except String (List Json × Json) := do
  let data ← body
  let fields ← match data with
    | .obj fs => Except.ok fs
    | _ => Except.error "AttributeError: object has no attribute values"
  let total ← sumValues (fields.map (fun p => p.2))
  let sortedFields := List.insertionSort bytesGE fields
  let languages := sortedFields.map (languageEntry total)
  return (languages,
    Json.obj [("owner", .str owner), ("repo", .str repo),
      ("total_bytes", .num total), ("language_count", .num languages.length)])

/-- `github_repo_languages(owner, repo)` as a function of the HTTP
behaviour. -/
def github_repo_languages (owner repo : String) (http : HttpBehavior)
    : List (String × Json) :=
  match http with
  | .timeout => errorOutcome "Request timeout while connecting to GitHub API"
  | .netError msg => errorOutcome ("Error fetching languages: " ++ msg)
  | .response status body =>
    if status == 404 then
      errorOutcome ("Repository " ++ owner ++ "/" ++ repo ++ " not found")
    else if status == 403 then
      errorOutcome "GitHub API rate limit exceeded. Set GITHUB_TOKEN to increase limits."
    else if status != 200 then
      errorOutcome ("GitHub API error: " ++ toString status)
    else
      match languagesResult owner repo body with
      | .ok (rs, d) => [("success", .bool true), ("result", .arr rs), ("details", d)]
      | .error e => errorOutcome ("Error fetching languages: " ++ e)

/-- First value stored under key `k` of an outcome dictionary. -/
def lookupField (out : List (String × Json)) (k : String) : Option Json :=
  (out.find? (fun p => p.1 == k)).map (fun p => p.2)

/-! Server glue: the `reasoning_agent` MCP tool (server.py lines 129-180).
The orchestrator constructor outcome is a parameter (an `Except` whose
error side is the message of the `ValueError` raised when
`OPENAI_API_KEY` is missing), as is the `execute` call on the
constructed orchestrator.  An `Except.error` of the whole function means
an uncaught Python exception crossed the tool boundary. -/

/-- The `message` string of the failure dictionary built at server.py
lines 157-160 (two adjacent Python string literals). -/
def openaiKeyMessage : String :=
  "Reasoning agent requires OPENAI_API_KEY " ++ "environment variable to be set."

/-- Formatting of the orchestrator result into the MCP response
(server.py lines 167-178).  Dict accesses are bound once in the order the
Python dict literal first evaluates them; `result["steps"]` and
`result["tool_calls"]` are read several times in the source and always
yield the same value. -/
def reasoningAgentFormat (result : Json) : Except String Json := do
  let r ← result.index "result"
  let steps ← result.index "steps"
  let totalSteps ← steps.pyLen
  let toolCalls ← result.index "tool_calls"
  let tcItems ← toolCalls.iter
  let toolsUsed ← mapE (fun tc => tc.get "tool" (.str "unknown")) tcItems
  let toolCount ← toolCalls.pyLen
  let reasoning ← result.index "reasoning"
  return Json.obj [("success", .bool true), ("result", r),
    ("execution_summary", .obj [("total_steps", .num totalSteps),
      ("tools_used", .arr toolsUsed), ("tool_count", .num toolCount)]),
    ("steps", steps), ("tool_calls", toolCalls), ("reasoning_chain", reasoning)]

/-- The `reasoning_agent` tool body: on a `ValueError` from the
orchestrator constructor, return the failure dictionary without calling
`execute`; otherwise call `execute` and format its result. -/
def reasoning_agent {Orch : Type} (ctor : Except String Orch)
    (execute : Orch → Json) : Except String Json :=
  match ctor with
  | .error e =>
      .ok (.obj [("success", .bool false), ("error", .str e),
        ("message", .str openaiKeyMessage)])
  | .ok o => reasoningAgentFormat (execute o)

/-! Spec-modelled orchestrator.  `ReasoningOrchestrator`
(src/agentic_mcp_gateway/agents/reasoning_orchestrator.py) is imported by
server.py but its source is not part of the sources under study; the
definitions below are modelled from the specification, sections 3 and
4.1: an `execute(goal, context)` that rejects goals empty after trimming
with `InvalidGoal` before any planning, and otherwise runs a
planner/executor loop bounded by a configured maximum step count. -/

/-- Modelled from the spec: a Planner action, either finish with a final
result or invoke a named tool. -/
inductive Action where
  | finish (result : Json) (rationale : String)
  | invoke (toolName : String) (args : Json) (rationale : String)

/-- Modelled from the spec: one planning-and-execution cycle. -/
structure Step where
  index : Nat
  action : Action
  outcome : Option (List (String × Json))

/-- Modelled from the spec: a record of one tool invocation. -/
structure ToolCall where
  tool : String
  args : Json
  outcome : List (String × Json)

/-- Modelled from the spec: the terminal artifact of one `execute` call. -/
structure ExecResult where
  result : Json
  steps : List Step
  toolCalls : List ToolCall
  reasoning : String
  budgetExceeded : Bool

/-- Modelled from the spec: the bounded orchestrator loop.  Each round
asks the planner for an action given the prior steps; a finish action
records a terminal step and exits; an unknown tool name records a
validation-error step and continues; a valid invocation records the tool
outcome as a step and a tool call.  The fuel is the configured maximum
step count. -/
def runSteps (planner : List Step → Action)
    (registry : String → Option (Json → List (String × Json)))
    : Nat → List Step → List ToolCall → ExecResult
  | 0, steps, calls =>
      { result := .str ("no conclusive answer reached in " ++
          toString steps.length ++ " steps"),
        steps := steps, toolCalls := calls,
        reasoning := toString steps.length ++ " steps taken",
        budgetExceeded := true }
  | fuel + 1, steps, calls =>
    match planner steps with
    | .finish r rat =>
        let finalStep : Step := ⟨steps.length, .finish r rat, none⟩
        { result := r, steps := steps ++ [finalStep], toolCalls := calls,
          reasoning := rat, budgetExceeded := false }
    | .invoke t a rat =>
      match registry t with
      | none =>
          let badStep : Step := ⟨steps.length, .invoke t a rat,
            some (errorOutcome "ToolValidationError: UnknownTool")⟩
          runSteps planner registry fuel (steps ++ [badStep]) calls
      | some f =>
          let okStep : Step := ⟨steps.length, .invoke t a rat, some (f a)⟩
          runSteps planner registry fuel (steps ++ [okStep])
            (calls ++ [⟨t, a, f a⟩])

/-- Python `goal.strip()`: leading and trailing whitespace removed. -/
def pyStrip (s : String) : String :=
  String.mk
    (((s.toList.dropWhile Char.isWhitespace).reverse.dropWhile
      Char.isWhitespace).reverse)

/-- Modelled from the spec: `execute(goal, context)`.  A goal empty after
trimming fails with `InvalidGoal` before any planning; otherwise the
bounded loop runs from an empty step and tool-call history. -/
def execute (goal : String) (planner : List Step → Action)
    (registry : String → Option (Json → List (String × Json)))
    (budget : Nat) : Except String ExecResult :=
  if pyStrip goal = "" then .error "InvalidGoal"
  else .ok (runSteps planner registry budget [] [])

/-! Predicates over adapter outcomes, and concrete payload fixtures used
in counterexample and witness statements. -/

/-- An outcome carries a boolean `success` and, whenever `success` is
false, a string `error`. -/
def outcomeNormalized (out : List (String × Json)) : Prop :=
  (∃ b, lookupField out "success" = some (.bool b)) ∧
  (lookupField out "success" = some (.bool false) →
    ∃ s, lookupField out "error" = some (.str s))

/-- An outcome of the normalized shape: `success = true` comes with a
`result`, `success = false` comes with a string `error`, and no outcome
lacks both `result` and `error`. -/
def outcomeShaped (out : List (String × Json)) : Prop :=
  (lookupField out "success" = some (.bool true) →
    ∃ r, lookupField out "result" = some r) ∧
  (lookupField out "success" = some (.bool false) →
    ∃ s, lookupField out "error" = some (.str s)) ∧
  (lookupField out "result" = none →
    ∃ s, lookupField out "error" = some (.str s))

/-- Is this payload item kept by the `github_list_issues` loop, i.e. does
`"pull_request" in item` evaluate (without raising) to `False`? -/
def isNonPRb (item : Json) : Bool :=
  match item.containsKey "pull_request" with
  | .ok b => !b
  | .error _ => false

/-- The byte count stored in a languages result entry. -/
def entryBytes (j : Json) : ℚ :=
  byteVal ((j.lookup "bytes").getD .null)

/-- A search payload item carrying just the four required keys. -/
def searchFixtureItem : Json :=
  .obj [("name", .null), ("full_name", .null), ("stargazers_count", .null),
    ("html_url", .null)]

/-- A search payload with 31 items, one more than the `per_page` cap. -/
def searchFixturePayload : Json :=
  .obj [("total_count", .num 100),
    ("items", .arr (List.replicate 31 searchFixtureItem))]

/-- The reshaped form of `searchFixtureItem`. -/
def searchFixtureItemOut : Json :=
  .obj [("name", .null), ("full_name", .null),
    ("description", .str "No description"), ("stars", .null),
    ("language", .str "Unknown"), ("html_url", .null)]

/-- A two-item search payload for witness statements. -/
def searchWitnessPayload : Json :=
  .obj [("total_count", .num 100),
    ("items", .arr [searchFixtureItem, searchFixtureItem])]

/-- A payload item that `github_list_issues` skips as a pull request. -/
def prFixtureItem : Json :=
  .obj [("pull_request", .obj [])]

/-- A complete non-pull-request issue payload item. -/
def issueFixtureItem : Json :=
  .obj [("number", .num 1), ("title", .str "Bug report"),
    ("state", .str "open"), ("user", .obj [("login", .str "user1")]),
    ("labels", .arr [.obj [("name", .str "bug")]]),
    ("created_at", .str "t1"), ("updated_at", .str "t2"),
    ("comments", .num 5), ("html_url", .str "u")]

/-- The reshaped form of `issueFixtureItem`. -/
def issueFixtureOut : Json :=
  .obj [("number", .num 1), ("title", .str "Bug report"),
    ("state", .str "open"), ("author", .str "user1"),
    ("labels", .arr [.str "bug"]), ("created_at", .str "t1"),
    ("updated_at", .str "t2"), ("comments", .num 5), ("html_url", .str "u")]

/-- The languages payload of the repository unit test. -/
def langFixtureFields : List (String × Json) :=
  [("Python", .num 50000), ("JavaScript", .num 30000), ("HTML", .num 20000)]

/-- A concrete orchestrator result: one tool call, two steps. -/
def execFixture : Json :=
  .obj [("result", .num 4), ("steps", .arr [.str "s1", .str "s2"]),
    ("tool_calls", .arr [.obj [("tool", .str "calculate")]]),
    ("reasoning", .str "done")]

/-! Helper lemmas shared by the claim theorems. -/

/-- Inversion of a successful `Except` bind. -/
theorem bindE_ok {ε α β : Type} {x : Except ε α} {f : α → Except ε β} {v : β}
    (h : x >>= f = .ok v) : ∃ a, x = .ok a ∧ f a = .ok v := by
  cases x with
  | error e => simp [Bind.bind, Except.bind] at h
  | ok a => exact ⟨a, rfl, by simpa [Bind.bind, Except.bind] using h⟩

/-- Every adapter outcome is either an error dictionary or the
three-field success dictionary; both satisfy the two shape predicates. -/
theorem outcome_shape (out : List (String × Json))
    (h : (∃ msg, out = errorOutcome msg) ∨
      ∃ r d, out = [("success", .bool true), ("result", r), ("details", d)]) :
    outcomeNormalized out ∧ outcomeShaped out := by
  rcases h with ⟨msg, rfl⟩ | ⟨r, d, rfl⟩
  · refine ⟨⟨⟨false, rfl⟩, fun _ => ⟨msg, rfl⟩⟩,
      ⟨fun hT => ?_, fun _ => ⟨msg, rfl⟩, fun _ => ⟨msg, rfl⟩⟩⟩
    rw [show lookupField (errorOutcome msg) "success" = some (.bool false)
      from rfl] at hT
    exact absurd (Json.bool.inj (Option.some.inj hT)) (by decide)
  · refine ⟨⟨⟨true, rfl⟩, fun hF => ?_⟩,
      ⟨fun _ => ⟨r, rfl⟩, fun hF => ?_, fun hN => ?_⟩⟩
    · rw [show lookupField [("success", Json.bool true), ("result", r),
        ("details", d)] "success" = some (.bool true) from rfl] at hF
      exact absurd (Json.bool.inj (Option.some.inj hF)) (by decide)
    · rw [show lookupField [("success", Json.bool true), ("result", r),
        ("details", d)] "success" = some (.bool true) from rfl] at hF
      exact absurd (Json.bool.inj (Option.some.inj hF)) (by decide)
    · rw [show lookupField [("success", Json.bool true), ("result", r),
        ("details", d)] "result" = some r from rfl] at hN
      simp at hN

/-- Case analysis of `github_repo_info`: every outcome has one of the two
dictionary shapes. -/
theorem github_repo_info_cases (owner repo : String) (http : HttpBehavior) :
    (∃ msg, github_repo_info owner repo http = errorOutcome msg) ∨
    ∃ r d, github_repo_info owner repo http =
      [("success", .bool true), ("result", r), ("details", d)] := by
  cases http with
  | timeout => exact .inl ⟨_, rfl⟩
  | netError m => exact .inl ⟨_, rfl⟩
  | response status body =>
    simp only [github_repo_info]
    split
    · exact .inl ⟨_, rfl⟩
    · split
      · exact .inl ⟨_, rfl⟩
      · split
        · exact .inl ⟨_, rfl⟩
        · split
          · next r d _ => exact .inr ⟨r, d, rfl⟩
          · exact .inl ⟨_, rfl⟩

/-- Case analysis of `github_search_repos`. -/
theorem github_search_repos_cases (query : String) (max_results : Int)
    (http : HttpBehavior) :
    (∃ msg, github_search_repos query max_results http = errorOutcome msg) ∨
    ∃ r d, github_search_repos query max_results http =
      [("success", .bool true), ("result", r), ("details", d)] := by
  cases http with
  | timeout => exact .inl ⟨_, rfl⟩
  | netError m => exact .inl ⟨_, rfl⟩
  | response status body =>
    simp only [github_search_repos]
    split
    · exact .inl ⟨_, rfl⟩
    · split
      · exact .inl ⟨_, rfl⟩
      · split
        · next rs d _ => exact .inr ⟨.arr rs, d, rfl⟩
        · exact .inl ⟨_, rfl⟩

/-- Case analysis of `github_list_issues`. -/
theorem github_list_issues_cases (owner repo state : String)
    (max_results : Int) (http : HttpBehavior) :
    (∃ msg, github_list_issues owner repo state max_results http =
      errorOutcome msg) ∨
    ∃ r d, github_list_issues owner repo state max_results http =
      [("success", .bool true), ("result", r), ("details", d)] := by
  cases http with
  | timeout => exact .inl ⟨_, rfl⟩
  | netError m => exact .inl ⟨_, rfl⟩
  | response status body =>
    simp only [github_list_issues]
    split
    · exact .inl ⟨_, rfl⟩
    · split
      · exact .inl ⟨_, rfl⟩
      · split
        · exact .inl ⟨_, rfl⟩
        · split
          · next rs d _ => exact .inr ⟨.arr rs, d, rfl⟩
          · exact .inl ⟨_, rfl⟩

/-- Case analysis of `github_repo_languages`. -/
theorem github_repo_languages_cases (owner repo : String)
    (http : HttpBehavior) :
    (∃ msg, github_repo_languages owner repo http = errorOutcome msg) ∨
    ∃ r d, github_repo_languages owner repo http =
      [("success", .bool true), ("result", r), ("details", d)] := by
  cases http with
  | timeout => exact .inl ⟨_, rfl⟩
  | netError m => exact .inl ⟨_, rfl⟩
  | response status body =>
    simp only [github_repo_languages]
    split
    · exact .inl ⟨_, rfl⟩
    · split
      · exact .inl ⟨_, rfl⟩
      · split
        · exact .inl ⟨_, rfl⟩
        · split
          · next rs d _ => exact .inr ⟨.arr rs, d, rfl⟩
          · exact .inl ⟨_, rfl⟩

/-- C1: for every call to any of the four GitHub tool adapters and every
behaviour of the underlying HTTP client (timeout, network error, any
status code, malformed or field-missing JSON body), the adapter returns
a dictionary with a boolean `success` key (never an uncaught exception,
since the embedding is a total function of the behaviour), and whenever
`success` is false the dictionary carries a human-readable string under
`error`. -/
theorem github_adapters_never_raise (owner repo query state : String)
    (max_results : Int) (http : HttpBehavior) :
    outcomeNormalized (github_repo_info owner repo http) ∧
    outcomeNormalized (github_search_repos query max_results http) ∧
    outcomeNormalized (github_list_issues owner repo state max_results http) ∧
    outcomeNormalized (github_repo_languages owner repo http) :=
  ⟨(outcome_shape _ (github_repo_info_cases owner repo http)).1,
   (outcome_shape _ (github_search_repos_cases query max_results http)).1,
   (outcome_shape _ (github_list_issues_cases owner repo state max_results http)).1,
   (outcome_shape _ (github_repo_languages_cases owner repo http)).1⟩

/-- C2: every outcome of a GitHub adapter conforms to the normalized
shape: `success = true` comes with a `result` key, `success = false`
comes with a string `error` key, and no outcome lacks both `result` and
`error`. -/
theorem github_adapters_outcome_shape (owner repo query state : String)
    (max_results : Int) (http : HttpBehavior) :
    outcomeShaped (github_repo_info owner repo http) ∧
    outcomeShaped (github_search_repos query max_results http) ∧
    outcomeShaped (github_list_issues owner repo state max_results http) ∧
    outcomeShaped (github_repo_languages owner repo http) :=
  ⟨(outcome_shape _ (github_repo_info_cases owner repo http)).2,
   (outcome_shape _ (github_search_repos_cases query max_results http)).2,
   (outcome_shape _ (github_list_issues_cases owner repo state max_results http)).2,
   (outcome_shape _ (github_repo_languages_cases owner repo http)).2⟩

/-- C3: whenever the GitHub API responds with a status other than 200,
the outcome is the error dictionary determined by the status code: for
the repository-scoped adapters 404 yields the not-found message, 403 the
rate-limit message, and every other non-200 status the generic
`GitHub API error: {status}` message; for the search adapter 403 yields
the rate-limit message and every other non-200 status the generic
message. -/
theorem github_adapters_status_mapping (owner repo query state : String)
    (max_results : Int) (status : Int) (body : Except String Json)
    (hne : status ≠ 200) :
    github_repo_info owner repo (.response status body) =
      (if status = 404 then
        errorOutcome ("Repository " ++ owner ++ "/" ++ repo ++ " not found")
      else if status = 403 then
        errorOutcome
          "GitHub API rate limit exceeded. Set GITHUB_TOKEN to increase limits."
      else errorOutcome ("GitHub API error: " ++ toString status)) ∧
    github_list_issues owner repo state max_results (.response status body) =
      (if status = 404 then
        errorOutcome ("Repository " ++ owner ++ "/" ++ repo ++ " not found")
      else if status = 403 then
        errorOutcome
          "GitHub API rate limit exceeded. Set GITHUB_TOKEN to increase limits."
      else errorOutcome ("GitHub API error: " ++ toString status)) ∧
    github_repo_languages owner repo (.response status body) =
      (if status = 404 then
        errorOutcome ("Repository " ++ owner ++ "/" ++ repo ++ " not found")
      else if status = 403 then
        errorOutcome
          "GitHub API rate limit exceeded. Set GITHUB_TOKEN to increase limits."
      else errorOutcome ("GitHub API error: " ++ toString status)) ∧
    github_search_repos query max_results (.response status body) =
      (if status = 403 then
        errorOutcome
          "GitHub API rate limit exceeded. Set GITHUB_TOKEN to increase limits."
      else errorOutcome ("GitHub API error: " ++ toString status)) := by
  by_cases h404 : status = 404 <;> by_cases h403 : status = 403 <;>
    simp_all [github_repo_info, github_list_issues, github_repo_languages,
      github_search_repos]

/-- Witness for C3: a 500 response to each adapter yields the generic
error message. -/
theorem github_adapters_status_mapping_witness :
    github_repo_info "o" "r" (.response 500 (.ok .null)) =
      errorOutcome "GitHub API error: 500" :=
  (github_adapters_status_mapping "o" "r" "q" "open" 5 500 (.ok .null)
    (by decide)).1.trans (by norm_num; rfl)

/-- If `f` succeeds on every element of `l` with value `g a`, the
effectful map succeeds with the pure map. -/
theorem mapE_ok_of_forall {α β ε : Type} {f : α → Except ε β} {g : α → β} :
    ∀ {l : List α}, (∀ a ∈ l, f a = .ok (g a)) → mapE f l = .ok (l.map g) := by
  intro l
  induction l with
  | nil => intro _; rfl
  | cons x xs ih =>
    intro h
    have hx := h x (List.mem_cons_self x xs)
    have hxs := ih (fun a ha => h a (List.mem_cons_of_mem _ ha))
    simp [mapE, hx, hxs, Bind.bind, Except.bind, List.map, Pure.pure,
      Except.pure]

/-- A successful effectful map preserves length. -/
theorem mapE_ok_length {α β ε : Type} {f : α → Except ε β} :
    ∀ {l : List α} {ys : List β}, mapE f l = .ok ys → ys.length = l.length := by
  intro l
  induction l with
  | nil =>
    intro ys h
    simp only [mapE] at h
    cases h
    rfl
  | cons x xs ih =>
    intro ys h
    cases hfx : f x with
    | error e => rw [mapE, hfx] at h; simp [Bind.bind, Except.bind] at h
    | ok y =>
      cases hm : mapE f xs with
      | error e =>
        rw [mapE, hfx, hm] at h
        simp [Bind.bind, Except.bind] at h
      | ok ys2 =>
        rw [mapE, hfx, hm] at h
        simp only [Bind.bind, Except.bind, Pure.pure, Except.pure] at h
        cases h
        simp [ih hm]

/-- C5: when the orchestrator constructor raises a `ValueError` (as it
does when `OPENAI_API_KEY` is not set), `reasoning_agent` returns a
dictionary with `success = False`, the error string, and a message
naming the `OPENAI_API_KEY` requirement; it does not raise across the
call boundary (the return value is an `Except.ok`) and does not invoke
`execute` (the outcome is the same for every execute function). -/
theorem reasoning_agent_init_failure {Orch : Type} (ctor : Except String Orch)
    (e : String) (exec exec2 : Orch → Json) (h : ctor = .error e) :
    reasoning_agent ctor exec = .ok (.obj [("success", .bool false),
      ("error", .str e), ("message", .str openaiKeyMessage)]) ∧
    reasoning_agent ctor exec = reasoning_agent ctor exec2 ∧
    Json.charsContain "OPENAI_API_KEY".toList openaiKeyMessage.toList = true := by
  subst h
  exact ⟨rfl, rfl, by decide⟩

/-- Witness for C5: a concrete constructor failure. -/
theorem reasoning_agent_init_failure_witness :
    reasoning_agent (.error "OPENAI_API_KEY not set" : Except String Unit)
      (fun _ => Json.null) = .ok (.obj [("success", .bool false),
      ("error", .str "OPENAI_API_KEY not set"),
      ("message", .str openaiKeyMessage)]) :=
  (reasoning_agent_init_failure (.error "OPENAI_API_KEY not set")
    "OPENAI_API_KEY not set" (fun _ => .null) (fun _ => .null) rfl).1

/-- C4: for every orchestrator result carrying `result`, `steps`,
`tool_calls` (a list of dictionaries) and `reasoning`, the
`reasoning_agent` tool returns `success = True` with `result`, `steps`
and `tool_calls` passed through unchanged, `reasoning` under
`reasoning_chain`, and an execution summary with
`total_steps = len(steps)`, `tool_count = len(tool_calls)`, and
`tools_used` the in-order `tool` fields (defaulting to `unknown`). -/
theorem reasoning_agent_formats_result {Orch : Type}
    (ctor : Except String Orch) (o : Orch) (exec : Orch → Json)
    (r rz : Json) (ss tcs : List Json)
    (hctor : ctor = .ok o)
    (hr : (exec o).index "result" = .ok r)
    (hs : (exec o).index "steps" = .ok (.arr ss))
    (ht : (exec o).index "tool_calls" = .ok (.arr tcs))
    (hz : (exec o).index "reasoning" = .ok rz)
    (hobj : ∀ tc ∈ tcs, ∃ fs, tc = Json.obj fs) :
    reasoning_agent ctor exec = .ok (.obj [("success", .bool true),
      ("result", r),
      ("execution_summary", .obj [("total_steps", .num ss.length),
        ("tools_used", .arr (tcs.map
          (fun tc => (tc.lookup "tool").getD (.str "unknown")))),
        ("tool_count", .num tcs.length)]),
      ("steps", .arr ss), ("tool_calls", .arr tcs),
      ("reasoning_chain", rz)]) := by
  subst hctor
  have hmap : mapE (fun tc => tc.get "tool" (.str "unknown")) tcs =
      .ok (tcs.map (fun tc => (tc.lookup "tool").getD (.str "unknown"))) := by
    apply mapE_ok_of_forall
    intro tc htc
    obtain ⟨fs, rfl⟩ := hobj tc htc
    rfl
  simp [reasoning_agent, reasoningAgentFormat, hr, hs, ht, hz, hmap,
    Json.pyLen, Json.iter, Bind.bind, Except.bind, Pure.pure, Except.pure]

/-- Witness for C4: the fixture result with one tool call and two
steps. -/
theorem reasoning_agent_formats_result_witness :
    reasoning_agent (.ok () : Except String Unit) (fun _ => execFixture) =
      .ok (.obj [("success", .bool true), ("result", .num 4),
      ("execution_summary", .obj [
        ("total_steps", .num ([Json.str "s1", Json.str "s2"].length)),
        ("tools_used", .arr ([Json.obj [("tool", .str "calculate")]].map
          (fun tc => (tc.lookup "tool").getD (.str "unknown")))),
        ("tool_count", .num ([Json.obj [("tool", .str "calculate")]].length))]),
      ("steps", .arr [.str "s1", .str "s2"]),
      ("tool_calls", .arr [.obj [("tool", .str "calculate")]]),
      ("reasoning_chain", .str "done")]) :=
  reasoning_agent_formats_result (.ok ()) () (fun _ => execFixture)
    (.num 4) (.str "done") [.str "s1", .str "s2"]
    [.obj [("tool", .str "calculate")]] rfl rfl rfl rfl rfl
    (by intro tc htc; simp at htc; exact ⟨_, htc⟩)

/-- C6: a goal that is empty after trimming whitespace fails with
`InvalidGoal` before any planning occurs: no `ExecResult` (hence no Step)
is produced, and the outcome does not depend on the planner. -/
theorem execute_invalid_goal (goal : String) (planner : List Step → Action)
    (registry : String → Option (Json → List (String × Json)))
    (budget : Nat) (h : pyStrip goal = "") :
    execute goal planner registry budget = .error "InvalidGoal" ∧
    (∀ res : ExecResult, execute goal planner registry budget ≠ .ok res) ∧
    (∀ planner2, execute goal planner registry budget =
      execute goal planner2 registry budget) := by
  refine ⟨by simp [execute, h], fun res hres => ?_, fun p2 => by simp [execute, h]⟩
  rw [show execute goal planner registry budget = .error "InvalidGoal"
    from by simp [execute, h]] at hres
  exact Except.noConfusion hres

/-- Witness for C6: the whitespace-only goal. -/
theorem execute_invalid_goal_witness :
    execute "   " (fun _ => Action.finish .null "") (fun _ => none) 10 =
      .error "InvalidGoal" :=
  (execute_invalid_goal "   " (fun _ => Action.finish .null "")
    (fun _ => none) 10 (by decide)).1

/-- The loop appends at most one step per fuel unit. -/
theorem runSteps_steps_length (planner : List Step → Action)
    (registry : String → Option (Json → List (String × Json))) :
    ∀ (fuel : Nat) (steps : List Step) (calls : List ToolCall),
      (runSteps planner registry fuel steps calls).steps.length ≤
        steps.length + fuel := by
  intro fuel
  induction fuel with
  | zero => intro steps calls; simp [runSteps]
  | succ n ih =>
    intro steps calls
    simp only [runSteps]
    cases hps : planner steps with
    | finish r rat => simp
    | invoke t a rat =>
      dsimp only
      cases hreg : registry t with
      | none =>
        dsimp only
        refine le_trans (ih _ _) ?_
        simp only [List.length_append, List.length_singleton]
        omega
      | some f =>
        dsimp only
        refine le_trans (ih _ _) ?_
        simp only [List.length_append, List.length_singleton]
        omega

/-- C7: for every non-empty goal and every planner behaviour (including
one that never finishes), `execute` terminates (it is a total function
returning an `ExecResult`) and performs at most the configured maximum
number of steps. -/
theorem execute_terminates (goal : String) (planner : List Step → Action)
    (registry : String → Option (Json → List (String × Json)))
    (budget : Nat) (h : pyStrip goal ≠ "") :
    ∃ res, execute goal planner registry budget = .ok res ∧
      res.steps.length ≤ budget := by
  refine ⟨runSteps planner registry budget [] [], by simp [execute, h], ?_⟩
  simpa using runSteps_steps_length planner registry budget [] []

/-- Witness for C7: a planner that always invokes an unregistered tool
still terminates within the budget. -/
theorem execute_terminates_witness :
    ∃ res, execute "solve it" (fun _ => Action.invoke "nosuch" .null "try")
      (fun _ => none) 3 = .ok res ∧ res.steps.length ≤ 3 :=
  execute_terminates "solve it" (fun _ => Action.invoke "nosuch" .null "try")
    (fun _ => none) 3 (by decide)

/-- Counterexample to C8 as stated: the truncation at github.py line 131
is `[:max_results]`, not `[:per_page]`, so a successful payload carrying
31 items with `max_results = 31` yields 31 results, more than
`min(max_results, 30) = 30`; the `per_page = 30` request parameter is not
enforced client-side. -/
theorem github_search_repos_over_cap :
    github_search_repos "q" 31 (.response 200 (.ok searchFixturePayload)) =
      [("success", .bool true),
        ("result", .arr (List.replicate 31 searchFixtureItemOut)),
        ("details", .obj [("query", .str "q"), ("total_count", .num 100),
          ("returned", .num ((31 : Nat) : ℚ))])] ∧
    ¬(((List.replicate 31 searchFixtureItemOut).length : Int) ≤ min 31 30) :=
  ⟨rfl, by simp⟩

/-- Forward characterization of a successful `searchResult`. -/
theorem searchResult_ok (query : String) (mr : Int) (data : Json)
    (xs rs : List Json) (tc : Json)
    (hitems : data.get "items" (.arr []) = .ok (.arr xs))
    (hmap : mapE searchItemResult (takePy xs mr) = .ok rs)
    (htc : data.index "total_count" = .ok tc) :
    searchResult query mr (.ok data) = .ok (rs,
      .obj [("query", .str query), ("total_count", tc),
        ("returned", .num rs.length)]) := by
  simp [searchResult, hitems, hmap, htc, Json.slice, Json.iter, Bind.bind,
    Except.bind, Pure.pure, Except.pure]

/-- C8 (amended): for every non-negative `max_results` and every payload
on which the reshaping succeeds, `github_search_repos` requests
`per_page = min(max_results, 30)` (capped at 30), returns at most
`max_results` repositories and no more than the payload carries — hence
at most `min(max_results, 30)` whenever the payload honours the requested
`per_page` — and the `returned` field of `details` equals the length of
the result list. -/
theorem github_search_repos_caps_results (query : String) (mr : Int)
    (data : Json) (xs rs : List Json) (tc : Json)
    (hmr : 0 ≤ mr)
    (hitems : data.get "items" (.arr []) = .ok (.arr xs))
    (hmap : mapE searchItemResult (takePy xs mr) = .ok rs)
    (htc : data.index "total_count" = .ok tc) :
    github_search_repos query mr (.response 200 (.ok data)) =
      [("success", .bool true), ("result", .arr rs),
        ("details", .obj [("query", .str query), ("total_count", tc),
          ("returned", .num rs.length)])] ∧
    (rs.length : Int) ≤ mr ∧
    rs.length ≤ xs.length ∧
    (xs.length ≤ 30 → (rs.length : Int) ≤ min mr 30) ∧
    github_search_per_page mr = min mr 30 ∧
    github_search_per_page mr ≤ 30 := by
  have htake : takePy xs mr = xs.take mr.toNat := by simp [takePy, hmr]
  have hlen : rs.length = min mr.toNat xs.length := by
    rw [mapE_ok_length hmap, htake, List.length_take]
  refine ⟨?_, by omega, by omega, fun h30 => ?_, rfl, min_le_right _ _⟩
  · have hsr := searchResult_ok query mr data xs rs tc hitems hmap htc
    simp [github_search_repos, hsr]
  · rw [le_min_iff]
    exact ⟨by omega, by omega⟩

/-- Witness for the amended C8: a two-item payload with
`max_results = 5`. -/
theorem github_search_repos_caps_results_witness :
    github_search_repos "q" 5 (.response 200 (.ok searchWitnessPayload)) =
      [("success", .bool true),
        ("result", .arr [searchFixtureItemOut, searchFixtureItemOut]),
        ("details", .obj [("query", .str "q"), ("total_count", .num 100),
          ("returned", .num (([searchFixtureItemOut,
            searchFixtureItemOut] : List Json).length))])] ∧
    (([searchFixtureItemOut, searchFixtureItemOut] : List Json).length : Int) ≤ 5 ∧
    ([searchFixtureItemOut, searchFixtureItemOut] : List Json).length ≤
      ([searchFixtureItem, searchFixtureItem] : List Json).length ∧
    (([searchFixtureItem, searchFixtureItem] : List Json).length ≤ 30 →
      (([searchFixtureItemOut, searchFixtureItemOut] : List Json).length : Int) ≤
        min 5 30) ∧
    github_search_per_page 5 = min 5 30 ∧
    github_search_per_page 5 ≤ 30 :=
  github_search_repos_caps_results "q" 5 searchWitnessPayload
    [searchFixtureItem, searchFixtureItem]
    [searchFixtureItemOut, searchFixtureItemOut] (.num 100)
    (by decide) rfl rfl rfl

/-- A reshaped issue dictionary never carries a `pull_request` key. -/
theorem issueItemResult_no_pr {item j : Json}
    (h : issueItemResult item = .ok j) :
    j.lookup "pull_request" = none := by
  unfold issueItemResult at h
  obtain ⟨number, h1, h⟩ := bindE_ok h
  obtain ⟨title, h2, h⟩ := bindE_ok h
  obtain ⟨state, h3, h⟩ := bindE_ok h
  obtain ⟨userVal, h4, h⟩ := bindE_ok h
  obtain ⟨author, h5, h⟩ := bindE_ok h
  obtain ⟨labelsVal, h6, h⟩ := bindE_ok h
  obtain ⟨labelItems, h7, h⟩ := bindE_ok h
  obtain ⟨labels, h8, h⟩ := bindE_ok h
  obtain ⟨created_at, h9, h⟩ := bindE_ok h
  obtain ⟨updated_at, h10, h⟩ := bindE_ok h
  obtain ⟨comments, h11, h⟩ := bindE_ok h
  obtain ⟨html_url, h12, h⟩ := bindE_ok h
  simp only [Pure.pure, Except.pure, Except.ok.injEq] at h
  subst h
  rfl

/-- A successful `collectIssues` run returns exactly one entry per
non-pull-request input item, and none of its entries carries a
`pull_request` key. -/
theorem collectIssues_ok :
    ∀ {items rs : List Json}, collectIssues items = .ok rs →
      rs.length = items.countP isNonPRb ∧
      ∀ j ∈ rs, Json.lookup j "pull_request" = none := by
  intro items
  induction items with
  | nil =>
    intro rs h
    simp only [collectIssues, Except.ok.injEq] at h
    subst h
    simp
  | cons item rest ih =>
    intro rs h
    unfold collectIssues at h
    obtain ⟨isPR, hc, h⟩ := bindE_ok h
    cases isPR with
    | true =>
      rw [if_pos rfl] at h
      obtain ⟨hlen, hpr⟩ := ih h
      refine ⟨?_, hpr⟩
      simp [List.countP_cons, isNonPRb, hc, hlen]
    | false =>
      rw [if_neg (by simp)] at h
      obtain ⟨issue, hi, h⟩ := bindE_ok h
      obtain ⟨more, hm, h⟩ := bindE_ok h
      simp only [Pure.pure, Except.pure, Except.ok.injEq] at h
      subst h
      obtain ⟨hlen, hpr⟩ := ih hm
      refine ⟨?_, ?_⟩
      · simp [List.countP_cons, isNonPRb, hc, hlen]
      · intro j hj
        rcases List.mem_cons.mp hj with rfl | hj2
        · exact issueItemResult_no_pr hi
        · exact hpr j hj2

/-- Forward characterization of a successful `issuesResult`. -/
theorem issuesResult_ok (owner repo state : String) (mr : Int)
    (ys rs : List Json) (hcol : collectIssues (takePy ys mr) = .ok rs) :
    issuesResult owner repo state mr (.ok (.arr ys)) = .ok (rs,
      .obj [("owner", .str owner), ("repo", .str repo),
        ("state", .str state), ("count", .num rs.length)]) := by
  simp [issuesResult, Json.slice, Json.iter, hcol, Bind.bind, Except.bind,
    Pure.pure, Except.pure]

/-- C9: for every successful `github_list_issues` payload, no entry of
the result carries a `pull_request` key, the result has at most
`max_results` entries, and its length equals the number of
non-pull-request items among the first `max_results` payload items —
truncation precedes filtering, so (final conjunct) the result can be
shorter than `max_results` even when the payload holds more
non-pull-request issues. -/
theorem github_list_issues_filters (owner repo state : String) (mr : Int)
    (ys rs : List Json) (hmr : 0 ≤ mr)
    (hcol : collectIssues (takePy ys mr) = .ok rs) :
    github_list_issues owner repo state mr (.response 200 (.ok (.arr ys))) =
      [("success", .bool true), ("result", .arr rs),
        ("details", .obj [("owner", .str owner), ("repo", .str repo),
          ("state", .str state), ("count", .num rs.length)])] ∧
    (rs.length : Int) ≤ mr ∧
    (∀ j ∈ rs, Json.lookup j "pull_request" = none) ∧
    rs.length = (takePy ys mr).countP isNonPRb ∧
    (∃ rs2, collectIssues
        (takePy [prFixtureItem, issueFixtureItem] 1) = .ok rs2 ∧
      rs2.length = 0 ∧
      1 ≤ ([prFixtureItem, issueFixtureItem] : List Json).countP isNonPRb) := by
  obtain ⟨hlen, hpr⟩ := collectIssues_ok hcol
  have htake : takePy ys mr = ys.take mr.toNat := by simp [takePy, hmr]
  have hbound : rs.length ≤ mr.toNat := by
    calc rs.length = (takePy ys mr).countP isNonPRb := hlen
    _ ≤ (takePy ys mr).length := List.countP_le_length _
    _ ≤ mr.toNat := by rw [htake]; simp [List.length_take]
  refine ⟨?_, by omega, hpr, hlen, ⟨[], rfl, rfl, by decide⟩⟩
  have hi := issuesResult_ok owner repo state mr ys rs hcol
  simp [github_list_issues, hi]

/-- Witness for C9: a three-item payload (issue, pull request, issue)
with `max_results = 2` yields the one reshaped issue among the first two
items. -/
theorem github_list_issues_filters_witness :
    github_list_issues "o" "r" "open" 2 (.response 200
      (.ok (.arr [issueFixtureItem, prFixtureItem, issueFixtureItem]))) =
      [("success", .bool true), ("result", .arr [issueFixtureOut]),
        ("details", .obj [("owner", .str "o"), ("repo", .str "r"),
          ("state", .str "open"),
          ("count", .num (([issueFixtureOut] : List Json).length))])] ∧
    (([issueFixtureOut] : List Json).length : Int) ≤ 2 ∧
    (∀ j ∈ ([issueFixtureOut] : List Json),
      Json.lookup j "pull_request" = none) ∧
    ([issueFixtureOut] : List Json).length =
      (takePy [issueFixtureItem, prFixtureItem, issueFixtureItem] 2).countP
        isNonPRb ∧
    (∃ rs2, collectIssues
        (takePy [prFixtureItem, issueFixtureItem] 1) = .ok rs2 ∧
      rs2.length = 0 ∧
      1 ≤ ([prFixtureItem, issueFixtureItem] : List Json).countP isNonPRb) :=
  github_list_issues_filters "o" "r" "open" 2
    [issueFixtureItem, prFixtureItem, issueFixtureItem] [issueFixtureOut]
    (by decide) rfl

/-- The percentage stored in a languages result entry. -/
theorem languageEntry_percentage (total : ℚ) (p : String × Json) :
    Json.lookup (languageEntry total p) "percentage" =
      some (.num (round2 (if 0 < total then byteVal p.2 / total * 100 else 0))) :=
  rfl

/-- The byte count stored in a languages result entry. -/
theorem entryBytes_languageEntry (total : ℚ) (p : String × Json) :
    entryBytes (languageEntry total p) = byteVal p.2 :=
  rfl

/-- Forward characterization of a successful `languagesResult`. -/
theorem languagesResult_ok (owner repo : String)
    (fields : List (String × Json)) (total : ℚ)
    (hsum : sumValues (fields.map (fun p => p.2)) = .ok total) :
    languagesResult owner repo (.ok (.obj fields)) = .ok
      ((List.insertionSort bytesGE fields).map (languageEntry total),
       .obj [("owner", .str owner), ("repo", .str repo),
         ("total_bytes", .num total),
         ("language_count", .num
           ((List.insertionSort bytesGE fields).map
             (languageEntry total)).length)]) := by
  simp [languagesResult, hsum, Bind.bind, Except.bind, Pure.pure, Except.pure]

/-- C10: a successful `github_repo_languages` payload (any mapping whose
values sum without a type error) is reshaped with no division by zero —
every percentage is 0 when the total byte count is 0 — the empty mapping
yields success with an empty result, `total_bytes = 0` and
`language_count = 0`, and the result entries are ordered by byte count in
non-increasing order. -/
theorem github_repo_languages_safe (owner repo : String)
    (fields : List (String × Json)) (total : ℚ) (rs : List Json)
    (hsum : sumValues (fields.map (fun p => p.2)) = .ok total)
    (hrs : rs = (List.insertionSort bytesGE fields).map (languageEntry total)) :
    github_repo_languages owner repo (.response 200 (.ok (.obj fields))) =
      [("success", .bool true), ("result", .arr rs),
        ("details", .obj [("owner", .str owner), ("repo", .str repo),
          ("total_bytes", .num total), ("language_count", .num rs.length)])] ∧
    (total = 0 → ∀ j ∈ rs, Json.lookup j "percentage" = some (.num 0)) ∧
    List.Pairwise (fun a b => entryBytes b ≤ entryBytes a) rs ∧
    github_repo_languages owner repo (.response 200 (.ok (.obj []))) =
      [("success", .bool true), ("result", .arr []),
        ("details", .obj [("owner", .str owner), ("repo", .str repo),
          ("total_bytes", .num 0),
          ("language_count", .num ((0 : Nat) : ℚ))])] := by
  subst hrs
  refine ⟨?_, ?_, ?_, rfl⟩
  · have hl := languagesResult_ok owner repo fields total hsum
    simp [github_repo_languages, hl]
  · rintro rfl j hj
    obtain ⟨p, hp, rfl⟩ := List.mem_map.mp hj
    rw [languageEntry_percentage]
    norm_num [round2]
  · have hsorted : List.Pairwise bytesGE (List.insertionSort bytesGE fields) :=
      List.sorted_insertionSort bytesGE fields
    refine List.pairwise_map.mpr (hsorted.imp ?_)
    intro a b hab
    rw [entryBytes_languageEntry, entryBytes_languageEntry]
    exact hab

/-- Witness for C10: the three-language payload of the repository unit
test. -/
theorem github_repo_languages_safe_witness :
    github_repo_languages "o" "r" (.response 200 (.ok (.obj langFixtureFields))) =
      [("success", .bool true), ("result", .arr
        ((List.insertionSort bytesGE langFixtureFields).map
          (languageEntry 100000))),
        ("details", .obj [("owner", .str "o"), ("repo", .str "r"),
          ("total_bytes", .num 100000),
          ("language_count", .num
            ((List.insertionSort bytesGE langFixtureFields).map
              (languageEntry 100000)).length)])] ∧
    ((100000 : ℚ) = 0 → ∀ j ∈ (List.insertionSort bytesGE langFixtureFields).map
      (languageEntry 100000), Json.lookup j "percentage" = some (.num 0)) ∧
    List.Pairwise (fun a b => entryBytes b ≤ entryBytes a)
      ((List.insertionSort bytesGE langFixtureFields).map
        (languageEntry 100000)) ∧
    github_repo_languages "o" "r" (.response 200 (.ok (.obj []))) =
      [("success", .bool true), ("result", .arr []),
        ("details", .obj [("owner", .str "o"), ("repo", .str "r"),
          ("total_bytes", .num 0),
          ("language_count", .num ((0 : Nat) : ℚ))])] :=
  github_repo_languages_safe "o" "r" langFixtureFields 100000
    ((List.insertionSort bytesGE langFixtureFields).map (languageEntry 100000))
    (by norm_num [langFixtureFields, sumValues, Bind.bind, Except.bind,
      Pure.pure, Except.pure]) rfl

end AgenticMcpGateway
